import Mathlib

/-!
Verification development for the `pythonequipmentdrivers` package: a shallow
embedding, in Lean 4, of the equipment-connection bootstrapper
(`EnvironmentSetup` in `__core.py`), the generic SCPI instrument wrapper
(`Scpi_Instrument`), the Keysight 33500B function-generator driver, and the
file-logging utilities (`data_management.py`).

Modelling conventions:
* Python exceptions are modelled with `Except PyErr` / `Option`.
* The VISA transport is modelled by the list of command strings a call writes
  (an erroring call that never reaches `instrument.write` produces no command),
  or, where a claim needs a stateful mock, by an explicit mock-instrument state.
* Python's dynamic values (arguments that may be `int`, `float` or `str`) are
  modelled by the inductive `PyVal`; Python floats are modelled by their
  printed decimal form `Dec` (sign, integer digits, fraction digits), which is
  exact for every value `str`/`float` round-trips.
* Effects that depend on the outside world (whether a VISA address answers,
  what a device method does when invoked) are parameters of the embedding:
  a `behave`/outcome function supplied to the definition.
-/

/-- Python exceptions raised by the code under study. -/
inductive PyErr where
  /-- `ValueError("Required Equipment Missing", missing)`: the payload is the
  set of required names absent from the configuration. -/
  | valueErrorMissing (missing : Finset String)
  /-- a `ValueError` carrying only a message. -/
  | valueErrorMsg (msg : String)
  /-- `pythonequipmentdrivers.errors.ResourceConnectionError`. -/
  | resourceConnectionError
  /-- `pythonequipmentdrivers.errors.UnsupportedResourceError`. -/
  | unsupportedResourceError
  /-- a `TypeError` (e.g. keyword-argument mismatch on a method call). -/
  | typeError
  /-- any exception other than `TypeError` escaping an init-sequence call. -/
  | otherError
  /-- `FileExistsError` from `Path.mkdir(exist_ok=False)`. -/
  | fileExistsError
  deriving DecidableEq

/-! ## Scpi_Instrument (`__core.py`, lines 58-222)

Only the state `__eq__`/`__ne__` consult is modelled: the concrete class name,
the address string, and (to show it is *not* consulted) the identity of the
underlying transport object. -/

/-- State of a `Scpi_Instrument` (or subclass) session relevant to equality:
`className` models `self.__class__.__name__`, `address` the `address`
attribute, and `transportId` the identity of the underlying
`self.instrument` transport object (distinct re-opens get distinct ids). -/
structure Scpi_Instrument where
  className : String
  address : String
  transportId : Nat
  deriving DecidableEq

/-- Embedding of `Scpi_Instrument.__eq__` (`__core.py` 142-164): both operands
here are sessions, so the `isinstance` guard is satisfied; the method then
compares class names and addresses, and never looks at the transport. -/
def Scpi_Instrument.eq (a b : Scpi_Instrument) : Bool :=
  if ¬ (a.className = b.className) then false
  else if ¬ (a.address = b.address) then false
  else true

/-- Embedding of `Scpi_Instrument.__ne__` (`__core.py` 166-178): the negation
of `__eq__`. -/
def Scpi_Instrument.ne (a b : Scpi_Instrument) : Bool :=
  ! (Scpi_Instrument.eq a b)

/-! ## EnvironmentSetup (`__core.py`, lines 225-462) -/

/-- One entry of the equipment-configuration mapping: the `definition`
(module identifier), `object` (class name) and `address` fields of the JSON
schema. (`kwargs` is folded into the instantiation outcome, see
`DeviceOutcome`.) -/
structure Entry where
  definitionMod : String
  object : String
  address : String
  deriving DecidableEq

/-- Outcome of attempting to resolve and instantiate one configuration entry
(`import_module` + `getattr` + `Class(address, **kwargs)`), a parameter of the
embedding: success, a transport failure (`VisaIOError`/`ConnectionError`), or
a resolution failure (`ModuleNotFoundError`/`AttributeError`). -/
inductive DeviceOutcome where
  | ok
  | visaError
  | resolutionError
  deriving DecidableEq

/-- Names present in a configuration, as a set: `set(self.configuration.keys())`. -/
def configKeys (config : List (String × Entry)) : Finset String :=
  (config.map Prod.fst).toFinset

/-- Embedding of `EnvironmentSetup.check_mask` (`__core.py` 313-329): with an
empty mask it does nothing; otherwise it intersects the configured names with
the mask and raises `ValueError("Required Equipment Missing", mask - common)`
when the intersection falls short of the mask. Returns the raised exception,
if any. -/
def check_mask (keys mask : Finset String) : Option PyErr :=
  if mask = ∅ then none
  else
    let common := keys ∩ mask
    if common = mask then none
    else some (PyErr.valueErrorMissing (mask \ common))

/-- Loop body of `EnvironmentSetup.connect_to_devices` (`__core.py` 366-405):
walks the (already mask-filtered) entries in order; on success binds the name;
on `VisaIOError`/`ConnectionError` re-raises as `ResourceConnectionError` when
a mask is present, else continues; on `ModuleNotFoundError`/`AttributeError`
re-raises as `UnsupportedResourceError` when a mask is present, else
continues. `bound` accumulates bound names (reversed), `attempts` counts
instantiation attempts (each is a transport/open call). -/
def connectLoop (mask : Finset String) (behave : Entry → DeviceOutcome) :
    List (String × Entry) → List String → Nat →
    Except PyErr (List String) × Nat
  | [], bound, attempts => (Except.ok bound.reverse, attempts)
  | (name, e) :: rest, bound, attempts =>
    match behave e with
    | DeviceOutcome.ok => connectLoop mask behave rest (name :: bound) (attempts + 1)
    | DeviceOutcome.visaError =>
      if mask = ∅ then connectLoop mask behave rest bound (attempts + 1)
      else (Except.error PyErr.resourceConnectionError, attempts + 1)
    | DeviceOutcome.resolutionError =>
      if mask = ∅ then connectLoop mask behave rest bound (attempts + 1)
      else (Except.error PyErr.unsupportedResourceError, attempts + 1)

/-- Embedding of `EnvironmentSetup.connect_to_devices` (`__core.py` 357-405):
first drops entries not in the mask (when a mask is present), then runs the
connection loop. The result is the ordered list of names bound as attributes
(or the exception that escaped), paired with the number of instantiation
attempts made. -/
def connect_to_devices (config : List (String × Entry)) (mask : Finset String)
    (behave : Entry → DeviceOutcome) : Except PyErr (List String) × Nat :=
  let remaining := if mask = ∅ then config
    else config.filter (fun p => p.1 ∈ mask)
  connectLoop mask behave remaining [] 0

/-- Embedding of `EnvironmentSetup.__init__` (`__core.py` 304-311): reads the
configuration, checks the mask, and only then connects. A mask failure
escapes before any instantiation attempt, hence the attempt count 0. -/
def environmentSetup_init (config : List (String × Entry)) (mask : Finset String)
    (behave : Entry → DeviceOutcome) : Except PyErr (List String) × Nat :=
  match check_mask (configKeys config) mask with
  | some e => (Except.error e, 0)
  | none => connect_to_devices config mask behave

/-! ### Per-device initialization (`__core.py` 407-462) -/

/-- Outcome of invoking one initialization method with its keyword arguments,
a parameter of the embedding: normal return, a `TypeError` (invalid kwargs),
or any other exception. -/
inductive MethodOutcome where
  | ok
  | typeError
  | otherError
  deriving DecidableEq

/-- What happened to one step of an init sequence. -/
inductive StepResult where
  /-- the method name was not among the callable methods: silently skipped. -/
  | skippedInvalid
  /-- the method was invoked and returned normally. -/
  | ran
  /-- the method raised `TypeError`; it was caught and reported. -/
  | caughtTypeError
  deriving DecidableEq

/-- Occurrence of `'__'` in a character list, for the `'__' not in func_name`
filter of `_get_callable_methods`. -/
def hasDunderChars : List Char → Bool
  | '_' :: '_' :: _ => true
  | _ :: rest => hasDunderChars rest
  | [] => false

/-- Embedding of `EnvironmentSetup._get_callable_methods` (`__core.py`
407-430): from the instance's `__dir__()` listing (modelled as name ×
is-callable pairs) keep the callable ones, then drop any name containing
a double underscore. -/
def get_callable_methods (instanceMethods : List (String × Bool)) : List String :=
  ((instanceMethods.filter (fun m => m.2)).map (fun m => m.1)).filter
    (fun n => ! hasDunderChars n.toList)

/-- Loop body of `EnvironmentSetup.initiaize_device` (`__core.py` 455-462):
steps whose method name is not a valid command are skipped without a call;
otherwise the method is invoked, `TypeError` is caught and reported, and any
other exception propagates. Each step is paired with the outcome invoking it
would have (the embedding of `func(**method_kwargs)`). -/
def initLoop (valid_cmds : List String) :
    List (String × MethodOutcome) → Except PyErr (List StepResult)
  | [] => Except.ok []
  | (method_name, call) :: rest =>
    if method_name ∈ valid_cmds then
      match call with
      | MethodOutcome.ok =>
        (initLoop valid_cmds rest).map (fun rs => StepResult.ran :: rs)
      | MethodOutcome.typeError =>
        (initLoop valid_cmds rest).map (fun rs => StepResult.caughtTypeError :: rs)
      | MethodOutcome.otherError => Except.error PyErr.otherError
    else
      (initLoop valid_cmds rest).map (fun rs => StepResult.skippedInvalid :: rs)

/-- Embedding of `EnvironmentSetup.initiaize_device` (`__core.py` 432-462):
computes the valid commands of the instance and runs the sequence. -/
def initiaize_device (instanceMethods : List (String × Bool))
    (sequence : List (String × MethodOutcome)) : Except PyErr (List StepResult) :=
  let valid_cmds := get_callable_methods instanceMethods
  initLoop valid_cmds sequence

/-- Reference description of one init step's fate, used to state that
`initiaize_device` processes every step: invalid names are skipped, a
`TypeError` is caught, a normal call runs. -/
def stepFate (valid_cmds : List String) (step : String × MethodOutcome) : StepResult :=
  if step.1 ∈ valid_cmds then
    match step.2 with
    | MethodOutcome.ok => StepResult.ran
    | MethodOutcome.typeError => StepResult.caughtTypeError
    | MethodOutcome.otherError => StepResult.ran
  else StepResult.skippedInvalid

/-! ## Python dynamic values and printed floats

`Dec` is the printed decimal form of a Python float in positional notation:
an optional sign, integer digits, a dot, and fraction digits (Python's `str`
always prints at least one digit on each side of the dot, e.g. `"0.0"`,
`"1000.0"`, `"2500000.0"`). Every finite binary float has such an exact
printed form, and `float(str(f)) == f`; exponent notation is not needed for
the values in play and is not modelled. -/

/-- Printed decimal form of a Python float: sign, integer digits (as printed,
most significant first), fraction digits. -/
structure Dec where
  neg : Bool
  ip : List (Fin 10)
  fp : List (Fin 10)
  deriving DecidableEq

/-- Decimal digit to its ASCII character. -/
def digitToChar (d : Fin 10) : Char := Char.ofNat (48 + d.val)

/-- ASCII character to decimal digit, if it is one. -/
def charToDigit (c : Char) : Option (Fin 10) :=
  if h : 48 ≤ c.toNat ∧ c.toNat < 58 then some ⟨c.toNat - 48, by omega⟩ else none

/-- Rendering of a `Dec` as Python's `str` prints a float:
`[-]digits.digits`. -/
def renderDec (d : Dec) : List Char :=
  (if d.neg then ['-'] else []) ++ d.ip.map digitToChar ++ '.' :: d.fp.map digitToChar

/-- Rendering of a `Dec` as a Lean `String`, for f-string interpolation. -/
def Dec.toStr (d : Dec) : String := String.mk (renderDec d)

/-- Python's dynamic argument values as the driver setters see them: the
`isinstance` branches of `set_burst_ncycles`/`set_burst_phase` distinguish
exactly `int`, `float` and `str`. -/
inductive PyVal where
  | int (n : Int)
  | float (f : Dec)
  | str (s : String)
  deriving DecidableEq

/-- How an f-string renders a `PyVal` (`str()` of the value). -/
def PyVal.render : PyVal → String
  | PyVal.int n => toString n
  | PyVal.float f => f.toStr
  | PyVal.str s => s

/-- Whether a `PyVal` is numeric (an `int` or a `float`). -/
def PyVal.isNumeric : PyVal → Bool
  | PyVal.int _ => true
  | PyVal.float _ => true
  | PyVal.str _ => false

/-- Embedding of Python's `str.upper()` for ASCII command arguments: map
`Char.toUpper` over the characters. (`String.toUpper` itself is avoided only
because its `mapAux` recursion does not reduce in kernel evaluation.) -/
def pyUpper (s : String) : String := String.mk (s.data.map Char.toUpper)

/-! ## Keysight_33500B function-generator driver
(`functiongenerator/Keysight_33500B.py`)

Each setter is embedded as a function from its arguments to
`Except PyErr (List String)`: the list of SCPI command strings the call
writes to the transport (empty when no write happens), or the exception it
raises — an exception raised before `instrument.write` yields no command. -/

/-- The class attribute `valid_wave_types` (`Keysight_33500B.py` 17-18).
Note: nothing in the driver reads it. -/
def valid_wave_types : List String :=
  ["ARB", "DC", "NOIS", "PRBS", "PULSE", "RAMP", "SIN", "SQU", "TRI"]

/-- Command written by `set_wave_type`. -/
def funcCmd (source : Nat) (wave_type : String) : String :=
  s!"SOUR{source}:FUNC {wave_type}"

/-- Embedding of `Keysight_33500B.set_wave_type` (`Keysight_33500B.py` 94-96):
writes the argument into the command verbatim, with no upper-casing and no
membership check against `valid_wave_types`. -/
def set_wave_type (wave_type : String) (source : Nat) : Except PyErr (List String) :=
  Except.ok [funcCmd source wave_type]

/-- Command written by `set_burst_mode`. -/
def burstModeCmd (source : Nat) (mode : String) : String :=
  s!"SOUR{source}:BURS:MODE {mode}"

/-- Embedding of `Keysight_33500B.set_burst_mode` (`Keysight_33500B.py`
180-185): upper-cases the mode, rejects anything outside `TRIG`/`GAT` before
writing. -/
def set_burst_mode (mode : String) (source : Nat) : Except PyErr (List String) :=
  let mode := pyUpper mode
  if ¬ (mode ∈ ["TRIG", "GAT"]) then
    Except.error (PyErr.valueErrorMsg "Invalid mode, valid modes are TRIG/GAT")
  else Except.ok [burstModeCmd source mode]

/-- Command written by `set_burst_gate_polarity`. -/
def gatePolCmd (source : Nat) (polarity : String) : String :=
  s!"SOUR{source}:BURS:GATE:POL {polarity}"

/-- Embedding of `Keysight_33500B.set_burst_gate_polarity`
(`Keysight_33500B.py` 191-196): upper-cases the polarity, rejects anything
outside `NORM`/`INV` before writing. -/
def set_burst_gate_polarity (polarity : String) (source : Nat) :
    Except PyErr (List String) :=
  let polarity := pyUpper polarity
  if ¬ (polarity ∈ ["NORM", "INV"]) then
    Except.error (PyErr.valueErrorMsg "Invalid mode, valid modes are NORM/INV")
  else Except.ok [gatePolCmd source polarity]

/-- Command written by `set_pulse_hold`. -/
def pulseHoldCmd (source : Nat) (param : String) : String :=
  s!"SOUR{source}:FUNC:PULSE:HOLD {param}"

/-- Embedding of `Keysight_33500B.set_pulse_hold` (`Keysight_33500B.py`
153-158): upper-cases the parameter, rejects anything outside `DCYC`/`WIDT`
before writing. -/
def set_pulse_hold (param : String) (source : Nat) : Except PyErr (List String) :=
  let param := pyUpper param
  if ¬ (param ∈ ["DCYC", "WIDT"]) then
    Except.error (PyErr.valueErrorMsg "Invalid param, must by DCYC/WIDT")
  else Except.ok [pulseHoldCmd source param]

/-- Command written by `set_burst_ncycles`. -/
def ncycCmd (source : Nat) (v : String) : String :=
  s!"SOUR{source}:BURS:NCYC {v}"

/-- Embedding of `Keysight_33500B.set_burst_ncycles` (`Keysight_33500B.py`
202-210): `isinstance(ncycles, int)` sends the number verbatim; a string
whose upper-casing is `INF`/`MIN`/`MAX` is upper-cased and sent; everything
else (including a `float`) raises `ValueError` with no write. -/
def set_burst_ncycles (ncycles : PyVal) (source : Nat) : Except PyErr (List String) :=
  let str_options := ["INF", "MIN", "MAX"]
  match ncycles with
  | PyVal.int n => Except.ok [ncycCmd source (toString n)]
  | PyVal.str s =>
    if pyUpper s ∈ str_options then Except.ok [ncycCmd source (pyUpper s)]
    else Except.error (PyErr.valueErrorMsg "invalid entry for ncycles")
  | PyVal.float _ => Except.error (PyErr.valueErrorMsg "invalid entry for ncycles")

/-- Command written by `set_burst_phase`. -/
def phaseCmd (source : Nat) (v : String) : String :=
  s!"SOUR{source}:BURS:PHASE {v}"

/-- Embedding of `Keysight_33500B.set_burst_phase` (`Keysight_33500B.py`
216-224): `isinstance(phase, float)` sends the number verbatim; a string
whose upper-casing is `MIN`/`MAX` is upper-cased and sent; everything else
(including an `int`) raises `ValueError` with no write. -/
def set_burst_phase (phase : PyVal) (source : Nat) : Except PyErr (List String) :=
  let str_options := ["MIN", "MAX"]
  match phase with
  | PyVal.float f => Except.ok [phaseCmd source f.toStr]
  | PyVal.str s =>
    if pyUpper s ∈ str_options then Except.ok [phaseCmd source (pyUpper s)]
    else Except.error (PyErr.valueErrorMsg "invalid entry for phase")
  | PyVal.int _ => Except.error (PyErr.valueErrorMsg "invalid entry for phase")

/-- The `which` synonyms `set_pulse_edge_time`/`get_pulse_edge_time` accept
for the rising edge. -/
def riseSynonyms : List String := ["RISE", "RISING", "R", "LEAD", "LEADING"]

/-- The `which` synonyms `set_pulse_edge_time`/`get_pulse_edge_time` accept
for the falling edge. -/
def fallSynonyms : List String := ["FALL", "FALLING", "F", "TRAIL", "TRAILING"]

/-- Embedding of `Keysight_33500B.set_pulse_edge_time` (`Keysight_33500B.py`
126-134): dispatches on the upper-cased `which`; an unrecognized selector
falls through all branches, so the method writes nothing and returns `None`
without raising. -/
def set_pulse_edge_time (time : PyVal) (which : String) (source : Nat) :
    Except PyErr (List String) :=
  let which := pyUpper which
  let t := time.render
  if which = "BOTH" then Except.ok [s!"SOUR{source}:FUNC:PULSE:TRAN {t}"]
  else if which ∈ riseSynonyms then
    Except.ok [s!"SOUR{source}:FUNC:PULSE:TRAN:LEAD {t}"]
  else if which ∈ fallSynonyms then
    Except.ok [s!"SOUR{source}:FUNC:PULSE:TRAN:TRA {t}"]
  else Except.ok []

/-- Embedding of `Keysight_33500B.get_pulse_edge_time` (`Keysight_33500B.py`
136-151), up to the queries it issues: an unrecognized selector reaches the
`else` branch and raises `ValueError('Invalid option for "which" arg')`. -/
def get_pulse_edge_time (which : String) (source : Nat) :
    Except PyErr (List String) :=
  let cmd_str := s!"SOUR{source}:FUNC:PULSE:TRAN"
  let which := pyUpper which
  if which = "BOTH" then Except.ok [cmd_str ++ "LEAD?", cmd_str ++ "TRA?"]
  else if which ∈ riseSynonyms then Except.ok [cmd_str ++ "LEAD?"]
  else if which ∈ fallSynonyms then Except.ok [cmd_str ++ "TRA?"]
  else Except.error (PyErr.valueErrorMsg "Invalid option for which arg")

/-! ### set_frequency / get_frequency against an echoing mock (claim C8)

The wire is modelled at character level so that the mock and the `float()`
parse in `get_frequency` are genuine functions of the written text. -/

/-- The write prefix `SOUR1:FREQ ` the mock recognizes (11 characters). -/
def freqWritePrefix : List Char := "SOUR1:FREQ ".toList

/-- The query `SOUR1:FREQ?` the mock recognizes. -/
def freqQueryCmd : List Char := "SOUR1:FREQ?".toList

/-- Mock instrument that echoes back the value of the last
`SOUR1:FREQ <value>` write when queried with `SOUR1:FREQ?`. -/
structure EchoInstrument where
  lastFreq : Option (List Char)
  deriving DecidableEq

/-- Fresh mock: nothing written yet. -/
def mock0 : EchoInstrument := ⟨none⟩

/-- The mock's write handler: a frequency-set command stores the text after
the prefix; everything else is ignored. -/
def mockWrite (m : EchoInstrument) (cmd : List Char) : EchoInstrument :=
  if cmd.take 11 = freqWritePrefix then { m with lastFreq := some (cmd.drop 11) }
  else m

/-- The mock's query handler: the frequency query echoes the stored value. -/
def mockQuery (m : EchoInstrument) (q : List Char) : Option (List Char) :=
  if q = freqQueryCmd then m.lastFreq else none

/-- The command text `set_frequency` writes: `f'SOUR{source}:FREQ {frequency}'`
(`Keysight_33500B.py` 86-88). -/
def freqSetCmd (source : Nat) (f : Dec) : List Char :=
  ("SOUR" ++ toString source ++ ":FREQ ").toList ++ renderDec f

/-- The query text `get_frequency` sends: `f'SOUR{source}:FREQ?'`
(`Keysight_33500B.py` 90-92). -/
def freqQueryOf (source : Nat) : List Char :=
  ("SOUR" ++ toString source ++ ":FREQ?").toList

/-- Embedding of `Keysight_33500B.set_frequency` run against the mock:
format the command and write it. -/
def set_frequency (f : Dec) (source : Nat) (m : EchoInstrument) : EchoInstrument :=
  mockWrite m (freqSetCmd source f)

/-- Whether a character is a decimal digit (as `float()` classifies it). -/
def isDigitChar (c : Char) : Bool := (charToDigit c).isSome

/-- Leading run of digit characters and the remainder. -/
def spanDigits : List Char → List Char × List Char
  | [] => ([], [])
  | c :: rest =>
    if isDigitChar c then
      let (ds, r) := spanDigits rest
      (c :: ds, r)
    else ([], c :: rest)

/-- All-digits character list to its digit list. -/
def parseDigitList : List Char → Option (List (Fin 10))
  | [] => some []
  | c :: rest =>
    match charToDigit c, parseDigitList rest with
    | some d, some ds => some (d :: ds)
    | _, _ => none

/-- Parse an unsigned positional decimal `digits.digits`. -/
def parseUnsignedDec (s : List Char) : Option Dec :=
  let (ipChars, rest) := spanDigits s
  match rest with
  | '.' :: fpChars =>
    if ipChars.isEmpty then none
    else
      match parseDigitList ipChars, parseDigitList fpChars with
      | some ip, some fp => if fp.isEmpty then none else some ⟨false, ip, fp⟩
      | _, _ => none
  | _ => none

/-- Embedding of Python's `float()` on the positional-notation decimal
strings `str()` prints for finite floats (the only strings the echo mock
returns): optional sign, then `digits.digits`. -/
def pyFloatOfChars (s : List Char) : Option Dec :=
  match s with
  | [] => none
  | c :: rest =>
    if c = '-' then (parseUnsignedDec rest).map (fun d => { d with neg := true })
    else parseUnsignedDec (c :: rest)

/-- Embedding of `Keysight_33500B.get_frequency` run against the mock:
query `SOUR{source}:FREQ?` and apply `float()` to the reply; `none` models
the `TypeError`/`ValueError` a missing or malformed reply would raise. -/
def get_frequency (source : Nat) (m : EchoInstrument) : Option Dec :=
  (mockQuery m (freqQueryOf source)).bind pyFloatOfChars

/-! ## Logging utilities (`utility/data_management.py`) -/

/-- Row `i` of `itertools.zip_longest(*data, fillvalue=fill)` over list
columns: each column contributes its `i`-th element or the fill value; there
are as many rows as the longest column. -/
def zipLongestRows (fill : String) (cols : List (List String)) : List (List String) :=
  let maxLen := cols.foldr (fun c m => max c.length m) 0
  (List.range maxLen).map (fun i => cols.map (fun c => c.getD i fill))

/-- Rows of `zip(*data)` over list columns: as many rows as the shortest
column (the `getD` default is never reached at indices below every length). -/
def zipRows (cols : List (List String)) : List (List String) :=
  match cols with
  | [] => []
  | c :: rest =>
    let minLen := rest.foldr (fun c2 m => min c2.length m) c.length
    (List.range minLen).map (fun i => cols.map (fun c2 => c2.getD i ""))

/-- Python `repr` of a simple string (no escaping needed for the cells in
play). -/
def pyStrRepr (s : String) : String := "'" ++ s ++ "'"

/-- Python `str`/`repr` of a tuple of strings, as `print` renders each row
tuple: `('a', 'b')`, with the one-element form `('a',)`. -/
def pyTupleRepr (row : List String) : String :=
  match row with
  | [x] => "(" ++ pyStrRepr x ++ ",)"
  | _ => "(" ++ String.intercalate ", " (row.map pyStrRepr) ++ ")"

/-- Embedding of `dump_array_data` (`data_management.py` 188-197), as the
list of text lines the call appends to the file: the rows generator is built
by `zip_longest` (some fill value) or `zip` (`fill_value=None`), and the
single `print(*rows, sep=',', end='\n', file=f)` renders every row tuple on
ONE line, comma-separated. -/
def dump_array_data_lines (data : List (List String)) (fill_value : Option String) :
    List String :=
  let rows := match fill_value with
    | some fv => zipLongestRows fv data
    | none => zipRows data
  [String.intercalate "," (rows.map pyTupleRepr)]

/-- Embedding of `Path.mkdir` on a filesystem modelled as the list of
existing paths: with `exist_ok=False` an existing path raises
`FileExistsError` and leaves the filesystem unchanged; otherwise the path is
created. (Parent-directory checks are not modelled.) -/
def pathMkdir (fs : List String) (path : String) (exist_ok : Bool) :
    Except PyErr (List String) :=
  if path ∈ fs then
    if exist_ok then Except.ok fs else Except.error PyErr.fileExistsError
  else Except.ok (path :: fs)

/-- Embedding of `open(path, 'w')` + write: creates (or overwrites) the file. -/
def writeNewFile (fs : List String) (path : String) : List String := path :: fs

/-- The run-directory path `create_test_log` builds:
`<base>/<name>_<timestamp>` with the default name `test_data`. -/
def testLogDir (base_dir : String) (test_name : Option String) (t_stamp : String) :
    String :=
  base_dir ++ "/" ++ test_name.getD "test_data" ++ "_" ++ t_stamp

/-- Embedding of `create_test_log` (`data_management.py` 266-288): builds
`<base>/<name>_<timestamp>`, creates it with `mkdir(exist_ok=False)` (an
existing directory is a `FileExistsError`, never reused), optionally creates
the `images`/`raw_data` sub-directories, and always writes the
`log_<timestamp>.txt` metadata file (`test_info` always contains the injected
`run_time` key). Returns the new filesystem and the created directory. -/
def create_test_log (fs : List String) (base_dir : String)
    (images raw_data : Bool) (test_name : Option String) (t_stamp : String) :
    Except PyErr (List String × String) :=
  let test_dir := testLogDir base_dir test_name t_stamp
  match pathMkdir fs test_dir false with
  | Except.error e => Except.error e
  | Except.ok fs1 =>
    match (if images then pathMkdir fs1 (test_dir ++ "/images") false
           else Except.ok fs1) with
    | Except.error e => Except.error e
    | Except.ok fs2 =>
      match (if raw_data then pathMkdir fs2 (test_dir ++ "/raw_data") false
             else Except.ok fs2) with
      | Except.error e => Except.error e
      | Except.ok fs3 =>
        Except.ok (writeNewFile fs3 (test_dir ++ "/log_" ++ t_stamp ++ ".txt"),
          test_dir)

/-! ## Theorems -/

/-- Helper: on a sequence none of whose calls raises anything but `TypeError`,
the init loop completes and records the fate of every step in order. -/
theorem initLoop_ok (valid_cmds : List String) :
    ∀ seq : List (String × MethodOutcome),
      (∀ s ∈ seq, s.2 ≠ MethodOutcome.otherError) →
      initLoop valid_cmds seq = Except.ok (seq.map (stepFate valid_cmds))
  | [], _ => rfl
  | (name, call) :: rest, hno => by
    have hhd : call ≠ MethodOutcome.otherError := hno (name, call) (by simp)
    have hrest : ∀ s ∈ rest, s.2 ≠ MethodOutcome.otherError :=
      fun s hs => hno s (List.mem_cons_of_mem _ hs)
    have ih := initLoop_ok valid_cmds rest hrest
    by_cases hmem : name ∈ valid_cmds
    · cases call with
      | ok => simp [initLoop, hmem, ih, stepFate, Except.map]
      | typeError => simp [initLoop, hmem, ih, stepFate, Except.map]
      | otherError => exact absurd rfl hhd
    · simp [initLoop, hmem, ih, stepFate, Except.map]

/-- Claim C7: two instrument sessions compare equal exactly when they have the
same concrete driver type (class name) and the same address string; the
underlying transport object plays no role, and `__ne__` is the negation of
`__eq__`. -/
theorem scpi_instrument_eq_iff_class_and_address (a b : Scpi_Instrument) :
    (Scpi_Instrument.eq a b = true ↔
      a.className = b.className ∧ a.address = b.address) ∧
    Scpi_Instrument.ne a b = ! Scpi_Instrument.eq a b := by
  refine ⟨?_, rfl⟩
  unfold Scpi_Instrument.eq
  by_cases h1 : a.className = b.className <;>
    by_cases h2 : a.address = b.address <;> simp [h1, h2]

/-- Claim C7 witness: two sessions of the same driver class on the same
address but with distinct underlying transport objects (re-opened at
different times) compare equal. -/
theorem scpi_instrument_eq_witness :
    Scpi_Instrument.eq ⟨"Keysight_33500B", "USB0::0x0957::INSTR", 0⟩
      ⟨"Keysight_33500B", "USB0::0x0957::INSTR", 37⟩ = true :=
  (scpi_instrument_eq_iff_class_and_address
    ⟨"Keysight_33500B", "USB0::0x0957::INSTR", 0⟩
    ⟨"Keysight_33500B", "USB0::0x0957::INSTR", 37⟩).1.mpr ⟨rfl, rfl⟩

/-- Claim C1: constructing an `EnvironmentSetup` with a non-empty mask, when
some required name is absent from the configuration, raises
`ValueError("Required Equipment Missing", missing)` whose payload is exactly
the set of missing names, and does so with zero instantiation attempts (no
device is instantiated and no transport call is made). -/
theorem env_setup_missing_mask_names (config : List (String × Entry))
    (mask : Finset String) (behave : Entry → DeviceOutcome)
    (hne : mask.Nonempty) (hmiss : ¬ mask ⊆ configKeys config) :
    environmentSetup_init config mask behave =
      (Except.error (PyErr.valueErrorMissing (mask \ configKeys config)), 0) := by
  have hne' : mask ≠ ∅ := Finset.nonempty_iff_ne_empty.mp hne
  have hcomm : ¬ (configKeys config ∩ mask = mask) := by
    rw [Finset.inter_eq_right]; exact hmiss
  have hdiff : mask \ (configKeys config ∩ mask) = mask \ configKeys config := by
    ext a; simp [Finset.mem_sdiff, Finset.mem_inter]
  simp [environmentSetup_init, check_mask, hne', hcomm, hdiff]

/-- Claim C1 witness: a one-entry configuration masked with two names fails
with exactly the missing name and zero instantiation attempts. -/
theorem env_setup_missing_mask_names_witness :
    environmentSetup_init
      [("fgen", ⟨"pythonequipmentdrivers.functiongenerator", "Keysight_33500B",
        "USB0::0x0957::INSTR"⟩)]
      {"fgen", "scope"} (fun _ => DeviceOutcome.ok) =
      (Except.error (PyErr.valueErrorMissing {"scope"}), 0) := by
  have h := env_setup_missing_mask_names
    [("fgen", ⟨"pythonequipmentdrivers.functiongenerator", "Keysight_33500B",
      "USB0::0x0957::INSTR"⟩)]
    {"fgen", "scope"} (fun _ => DeviceOutcome.ok) (by decide) (by decide)
  have hpay : ({"fgen", "scope"} : Finset String) \
      configKeys [("fgen", ⟨"pythonequipmentdrivers.functiongenerator",
        "Keysight_33500B", "USB0::0x0957::INSTR"⟩)] = {"scope"} := by decide
  rw [h, hpay]

/-- Claim C5: with three configured entries whose middle entry fails with a
transport error, and no mask, the other two entries are bound in order, the
failing name is absent from the bound set, and no exception escapes (all
three instantiations are attempted); with a mask covering all three names the
same failure aborts the whole construction with `ResourceConnectionError`. -/
theorem connect_skips_unmasked_failure_aborts_masked (n1 n2 n3 : String)
    (e1 e2 e3 : Entry) (behave : Entry → DeviceOutcome)
    (h12 : n1 ≠ n2) (h23 : n2 ≠ n3)
    (hb1 : behave e1 = DeviceOutcome.ok)
    (hb2 : behave e2 = DeviceOutcome.visaError)
    (hb3 : behave e3 = DeviceOutcome.ok) :
    (environmentSetup_init [(n1, e1), (n2, e2), (n3, e3)] ∅ behave =
        (Except.ok [n1, n3], 3) ∧
      n2 ∉ ([n1, n3] : List String)) ∧
    (environmentSetup_init [(n1, e1), (n2, e2), (n3, e3)]
        {n1, n2, n3} behave).1 =
      Except.error PyErr.resourceConnectionError := by
  refine ⟨⟨?_, ?_⟩, ?_⟩
  · simp [environmentSetup_init, check_mask, connect_to_devices, connectLoop,
      hb1, hb2, hb3]
  · simp [Ne.symm h12, h23]
  · have hmne : ({n1, n2, n3} : Finset String) ≠ ∅ := Finset.insert_ne_empty _ _
    have hkeys : configKeys [(n1, e1), (n2, e2), (n3, e3)] =
        ({n1, n2, n3} : Finset String) := by
      simp [configKeys]
    simp [environmentSetup_init, check_mask, hkeys, hmne, Finset.inter_self,
      connect_to_devices, connectLoop, hb1, hb2, hb3]

/-- Claim C5 witness: a concrete three-entry configuration whose middle
address is unreachable. -/
theorem connect_skips_unmasked_failure_witness :
    (environmentSetup_init
        [("source", ⟨"pythonequipmentdrivers.source", "Chroma_62012P", "GPIB0::1"⟩),
         ("scope", ⟨"pythonequipmentdrivers.oscilloscope", "Tektronix_2014B", "GPIB0::2"⟩),
         ("sink", ⟨"pythonequipmentdrivers.sink", "Chroma_63206A", "GPIB0::3"⟩)]
        ∅ (fun e => if e.address = "GPIB0::2" then DeviceOutcome.visaError
          else DeviceOutcome.ok) =
        (Except.ok ["source", "sink"], 3) ∧
      "scope" ∉ (["source", "sink"] : List String)) ∧
    (environmentSetup_init
        [("source", ⟨"pythonequipmentdrivers.source", "Chroma_62012P", "GPIB0::1"⟩),
         ("scope", ⟨"pythonequipmentdrivers.oscilloscope", "Tektronix_2014B", "GPIB0::2"⟩),
         ("sink", ⟨"pythonequipmentdrivers.sink", "Chroma_63206A", "GPIB0::3"⟩)]
        {"source", "scope", "sink"}
        (fun e => if e.address = "GPIB0::2" then DeviceOutcome.visaError
          else DeviceOutcome.ok)).1 =
      Except.error PyErr.resourceConnectionError :=
  connect_skips_unmasked_failure_aborts_masked "source" "scope" "sink"
    ⟨"pythonequipmentdrivers.source", "Chroma_62012P", "GPIB0::1"⟩
    ⟨"pythonequipmentdrivers.oscilloscope", "Tektronix_2014B", "GPIB0::2"⟩
    ⟨"pythonequipmentdrivers.sink", "Chroma_63206A", "GPIB0::3"⟩
    _ (by decide) (by decide) (by decide) (by decide) (by decide)

/-- Claim C6: on an init sequence in which some steps raise `TypeError`
(keyword-argument mismatch) and the rest return normally, `initiaize_device`
completes without an exception and records the fate of every step in declared
order: a `TypeError` step is caught (`caughtTypeError`), not-callable names
are skipped, and every remaining step still executes. -/
theorem init_sequence_catches_type_mismatch (instanceMethods : List (String × Bool))
    (sequence : List (String × MethodOutcome))
    (hno : ∀ s ∈ sequence, s.2 ≠ MethodOutcome.otherError) :
    initiaize_device instanceMethods sequence =
      Except.ok (sequence.map (stepFate (get_callable_methods instanceMethods))) := by
  unfold initiaize_device
  exact initLoop_ok _ sequence hno

/-- Claim C6 witness: a three-step sequence whose first step has mismatched
keyword arguments is caught; the remaining two steps still run (the dunder
name is skipped without a call). -/
theorem init_sequence_catches_type_mismatch_witness :
    initiaize_device
      [("set_voltage", true), ("off", true), ("__init__", true), ("address", false)]
      [("set_voltage", MethodOutcome.typeError), ("__init__", MethodOutcome.ok),
       ("off", MethodOutcome.ok)] =
      Except.ok [StepResult.caughtTypeError, StepResult.skippedInvalid,
        StepResult.ran] := by
  have h := init_sequence_catches_type_mismatch
    [("set_voltage", true), ("off", true), ("__init__", true), ("address", false)]
    [("set_voltage", MethodOutcome.typeError), ("__init__", MethodOutcome.ok),
     ("off", MethodOutcome.ok)] (by decide)
  rw [h]
  rfl

/-- Claim C2 (failing part): `set_wave_type` performs no enum validation —
`'BOGUS'` is outside `valid_wave_types` (even after upper-casing) yet the
call raises nothing and the malformed command reaches the transport; the
sibling setter `set_burst_mode` does reject the same value before any
write. -/
theorem set_wave_type_skips_validation :
    pyUpper "BOGUS" ∉ valid_wave_types ∧
    set_wave_type "BOGUS" 1 = Except.ok [funcCmd 1 "BOGUS"] ∧
    funcCmd 1 "BOGUS" = "SOUR1:FUNC BOGUS" ∧
    set_burst_mode "BOGUS" 1 =
      Except.error (PyErr.valueErrorMsg "Invalid mode, valid modes are TRIG/GAT") :=
  ⟨by decide, rfl, rfl, rfl⟩

/-- Claim C3 counterexample: `90` is a numeric value, yet
`set_burst_phase(90)` (an `int`, not a `float`) raises `ValueError` instead
of sending it verbatim — the claim's "a numeric argument is sent verbatim"
fails on the code. -/
theorem set_burst_phase_rejects_numeric_int :
    (PyVal.int 90).isNumeric = true ∧
    set_burst_phase (PyVal.int 90) 1 =
      Except.error (PyErr.valueErrorMsg "invalid entry for phase") :=
  ⟨rfl, rfl⟩

/-- Claim C3 (amended): `set_burst_ncycles` sends `int` arguments verbatim
and `set_burst_phase` sends `float` arguments verbatim; a string whose
upper-cased form is a recognized sentinel (`INF`/`MIN`/`MAX` for ncycles,
`MIN`/`MAX` for phase) is upper-cased and sent; every other value — including
a numeric value of the other numeric type — raises `ValueError` with no
write. -/
theorem burst_numeric_sentinel_dispatch :
    (∀ (n : Int) (src : Nat),
      set_burst_ncycles (PyVal.int n) src = Except.ok [ncycCmd src (toString n)]) ∧
    (∀ (s : String) (src : Nat), pyUpper s ∈ ["INF", "MIN", "MAX"] →
      set_burst_ncycles (PyVal.str s) src = Except.ok [ncycCmd src (pyUpper s)]) ∧
    (∀ (s : String) (src : Nat), pyUpper s ∉ ["INF", "MIN", "MAX"] →
      set_burst_ncycles (PyVal.str s) src =
        Except.error (PyErr.valueErrorMsg "invalid entry for ncycles")) ∧
    (∀ (f : Dec) (src : Nat),
      set_burst_ncycles (PyVal.float f) src =
        Except.error (PyErr.valueErrorMsg "invalid entry for ncycles")) ∧
    (∀ (f : Dec) (src : Nat),
      set_burst_phase (PyVal.float f) src = Except.ok [phaseCmd src f.toStr]) ∧
    (∀ (s : String) (src : Nat), pyUpper s ∈ ["MIN", "MAX"] →
      set_burst_phase (PyVal.str s) src = Except.ok [phaseCmd src (pyUpper s)]) ∧
    (∀ (s : String) (src : Nat), pyUpper s ∉ ["MIN", "MAX"] →
      set_burst_phase (PyVal.str s) src =
        Except.error (PyErr.valueErrorMsg "invalid entry for phase")) ∧
    (∀ (n : Int) (src : Nat),
      set_burst_phase (PyVal.int n) src =
        Except.error (PyErr.valueErrorMsg "invalid entry for phase")) := by
  refine ⟨fun n src => rfl, fun s src h => ?_, fun s src h => ?_,
    fun f src => rfl, fun f src => rfl, fun s src h => ?_, fun s src h => ?_,
    fun n src => rfl⟩
  all_goals simp [set_burst_ncycles, set_burst_phase, h]

/-- Claim C3 witness: concrete dispatches — an `int` ncycles is written
verbatim, the sentinel `"inf"` is upper-cased and written, and an
unrecognized string for phase raises with no write. -/
theorem burst_numeric_sentinel_dispatch_witness :
    set_burst_ncycles (PyVal.int 5) 1 = Except.ok [ncycCmd 1 "5"] ∧
    set_burst_ncycles (PyVal.str "inf") 1 = Except.ok [ncycCmd 1 "INF"] ∧
    set_burst_phase (PyVal.str "bogus") 1 =
      Except.error (PyErr.valueErrorMsg "invalid entry for phase") := by
  refine ⟨?_, ?_, ?_⟩
  · exact burst_numeric_sentinel_dispatch.1 5 1
  · exact burst_numeric_sentinel_dispatch.2.1 "inf" 1 (by decide)
  · exact burst_numeric_sentinel_dispatch.2.2.2.2.2.2.1 "bogus" 1 (by decide)

/-- Claim C4 (failing part): on inputs of lengths 3 and 5 with
`fill_value=""` the `zip_longest` rows are the expected 5 padded rows, but
the single `print(*rows, sep=',')` writes them all on ONE text line — the
file receives 1 line, not 5 rows. -/
theorem dump_array_data_writes_single_line :
    zipLongestRows "" [["a", "b", "c"], ["1", "2", "3", "4", "5"]] =
      [["a", "1"], ["b", "2"], ["c", "3"], ["", "4"], ["", "5"]] ∧
    (zipLongestRows "" [["a", "b", "c"], ["1", "2", "3", "4", "5"]]).length = 5 ∧
    (dump_array_data_lines [["a", "b", "c"], ["1", "2", "3", "4", "5"]]
        (some "")).length = 1 ∧
    dump_array_data_lines [["a", "b", "c"], ["1", "2", "3", "4", "5"]] (some "") =
      ["('a', '1'),('b', '2'),('c', '3'),('', '4'),('', '5')"] :=
  ⟨rfl, rfl, rfl, rfl⟩

/-- Claim C9: `create_test_log` fails with `FileExistsError` whenever the
target run directory `<base>/<name>_<timestamp>` already exists, and a
successful call implies the run directory did not previously exist — an
existing run directory is never reused. -/
theorem create_test_log_no_clobber (fs : List String) (base_dir : String)
    (images raw_data : Bool) (test_name : Option String) (t_stamp : String) :
    (testLogDir base_dir test_name t_stamp ∈ fs →
      create_test_log fs base_dir images raw_data test_name t_stamp =
        Except.error PyErr.fileExistsError) ∧
    (∀ fs2 r, create_test_log fs base_dir images raw_data test_name t_stamp =
        Except.ok (fs2, r) →
      testLogDir base_dir test_name t_stamp ∉ fs ∧
      r = testLogDir base_dir test_name t_stamp) := by
  constructor
  · intro hdir
    simp [create_test_log, pathMkdir, hdir]
  · intro fs2 r hok
    by_cases hdir : testLogDir base_dir test_name t_stamp ∈ fs
    · simp [create_test_log, pathMkdir, hdir] at hok
    · refine ⟨hdir, ?_⟩
      simp only [create_test_log, pathMkdir, hdir, if_neg, ite_false] at hok
      repeat' split at hok
      all_goals simp_all

/-- Claim C9 witness: a filesystem already holding the run directory makes
the call fail with `FileExistsError`. -/
theorem create_test_log_no_clobber_witness :
    create_test_log ["data/test_data_20260101120000"] "data" false false none
      "20260101120000" = Except.error PyErr.fileExistsError :=
  (create_test_log_no_clobber ["data/test_data_20260101120000"] "data" false false
    none "20260101120000").1 (by decide)

/-- Claim C10: for a `which` selector whose upper-cased form is none of
`BOTH`, the rise synonyms or the fall synonyms, `set_pulse_edge_time`
silently writes nothing and returns `None`, while `get_pulse_edge_time`
raises `ValueError` — the setter and getter disagree on rejecting invalid
edge selectors. -/
theorem pulse_edge_time_setter_getter_mismatch (time : PyVal) (which : String)
    (source : Nat) (hb : pyUpper which ≠ "BOTH")
    (hr : pyUpper which ∉ riseSynonyms) (hf : pyUpper which ∉ fallSynonyms) :
    set_pulse_edge_time time which source = Except.ok [] ∧
    get_pulse_edge_time which source =
      Except.error (PyErr.valueErrorMsg "Invalid option for which arg") := by
  constructor <;> simp [set_pulse_edge_time, get_pulse_edge_time, hb, hr, hf]

/-- Claim C10 witness: the unrecognized selector `"sideways"`. -/
theorem pulse_edge_time_mismatch_witness :
    set_pulse_edge_time (PyVal.int 5) "sideways" 1 = Except.ok [] ∧
    get_pulse_edge_time "sideways" 1 =
      Except.error (PyErr.valueErrorMsg "Invalid option for which arg") :=
  pulse_edge_time_setter_getter_mismatch (PyVal.int 5) "sideways" 1
    (by decide) (by decide) (by decide)

/-- Helper: parsing a digit character inverts rendering. -/
theorem charToDigit_digitToChar : ∀ d : Fin 10, charToDigit (digitToChar d) = some d := by
  decide

/-- Helper: rendered digits are digit characters. -/
theorem isDigitChar_digitToChar : ∀ d : Fin 10, isDigitChar (digitToChar d) = true := by
  decide

/-- Helper: the decimal dot is not a digit character. -/
theorem isDigitChar_dot : isDigitChar '.' = false := by decide

/-- Helper: no rendered digit is the minus sign. -/
theorem digitToChar_ne_dash : ∀ d : Fin 10, digitToChar d ≠ '-' := by decide

/-- Helper: the digit scan stops exactly at the decimal dot. -/
theorem spanDigits_render (ip : List (Fin 10)) (r : List Char) :
    spanDigits (ip.map digitToChar ++ '.' :: r) = (ip.map digitToChar, '.' :: r) := by
  induction ip with
  | nil => simp [spanDigits, isDigitChar_dot]
  | cons d rest ih => simp [spanDigits, isDigitChar_digitToChar d, ih]

/-- Helper: parsing a rendered digit run recovers the digits. -/
theorem parseDigitList_map (l : List (Fin 10)) :
    parseDigitList (l.map digitToChar) = some l := by
  induction l with
  | nil => rfl
  | cons d rest ih => simp [parseDigitList, charToDigit_digitToChar d, ih]

/-- Helper: `float()` inverts `str()` on every printed decimal with at least
one integer digit and one fraction digit (as Python always prints). -/
theorem pyFloat_renderDec (d : Dec) (hip : d.ip ≠ []) (hfp : d.fp ≠ []) :
    pyFloatOfChars (renderDec d) = some d := by
  obtain ⟨neg, ip, fp⟩ := d
  simp only at hip hfp
  have hipE : (ip.map digitToChar).isEmpty = false := by
    cases ip with
    | nil => exact absurd rfl hip
    | cons a l => rfl
  have hfpE : fp.isEmpty = false := by
    cases fp with
    | nil => exact absurd rfl hfp
    | cons a l => rfl
  have huns : parseUnsignedDec (ip.map digitToChar ++ '.' :: fp.map digitToChar) =
      some ⟨false, ip, fp⟩ := by
    unfold parseUnsignedDec
    rw [spanDigits_render]
    simp [parseDigitList_map, hipE, hfpE]
  cases neg with
  | true =>
    show pyFloatOfChars ('-' :: (ip.map digitToChar ++ '.' :: fp.map digitToChar)) = _
    simp [pyFloatOfChars, huns]
  | false =>
    show pyFloatOfChars (ip.map digitToChar ++ '.' :: fp.map digitToChar) = _
    cases ip with
    | nil => exact absurd rfl hip
    | cons d0 ip' =>
      have hdash : ¬ (digitToChar d0 = '-') := digitToChar_ne_dash d0
      simp only [List.map_cons, List.cons_append, pyFloatOfChars, hdash, if_false,
        ite_false]
      exact (by simpa using huns)

/-- Claim C8: `set_frequency(f)` followed by `get_frequency()` against the
mock instrument that echoes back the last written value returns `f` exactly,
for every printed float `f` (non-empty integer and fraction digit lists, as
Python's `str` always prints). -/
theorem set_get_frequency_roundtrip (f : Dec) (hip : f.ip ≠ []) (hfp : f.fp ≠ []) :
    get_frequency 1 (set_frequency f 1 mock0) = some f := by
  have hstate : set_frequency f 1 mock0 = ⟨some (renderDec f)⟩ := rfl
  rw [hstate]
  show (mockQuery ⟨some (renderDec f)⟩ (freqQueryOf 1)).bind pyFloatOfChars = some f
  have hq : mockQuery ⟨some (renderDec f)⟩ (freqQueryOf 1) = some (renderDec f) := rfl
  rw [hq]
  exact pyFloat_renderDec f hip hfp

/-- Claim C8 witness: the representative values 0.0, 1000.0 (= 1e3) and
2500000.0 (= 2.5e6) round-trip through the echoing mock. -/
theorem set_get_frequency_roundtrip_witness :
    get_frequency 1 (set_frequency ⟨false, [0], [0]⟩ 1 mock0) =
      some ⟨false, [0], [0]⟩ ∧
    get_frequency 1 (set_frequency ⟨false, [1, 0, 0, 0], [0]⟩ 1 mock0) =
      some ⟨false, [1, 0, 0, 0], [0]⟩ ∧
    get_frequency 1 (set_frequency ⟨false, [2, 5, 0, 0, 0, 0, 0], [0]⟩ 1 mock0) =
      some ⟨false, [2, 5, 0, 0, 0, 0, 0], [0]⟩ :=
  ⟨set_get_frequency_roundtrip ⟨false, [0], [0]⟩ (by decide) (by decide),
   set_get_frequency_roundtrip ⟨false, [1, 0, 0, 0], [0]⟩ (by decide) (by decide),
   set_get_frequency_roundtrip ⟨false, [2, 5, 0, 0, 0, 0, 0], [0]⟩ (by decide)
     (by decide)⟩
